import Mathlib

/-!
Verification of the article-generation web tool: a server-side generation
endpoint (`src/app/api/generate/route.ts`, handler `POST`) and a client-side
form controller (`src/app/page.tsx`, `validateForm`, `handleSubmit`,
`downloadMarkdown`). The TypeScript is embedded shallowly: JavaScript runtime
values that validation inspects become the `JsValue` type, the handler becomes
a pure function from the parsed body, the environment credential and the
provider-call outcome to an HTTP-level outcome, and the client submit handler
becomes a state-transition function.
-/

/-- A JavaScript runtime value as far as the endpoint's validation can
distinguish them: `undefined`, `null`, booleans, numbers, strings, and any
other (object-like, always truthy) value. -/
inductive JsValue where
  | undef
  | nullV
  | boolV (b : Bool)
  | numV (n : Int)
  | strV (s : String)
  | objV
  deriving DecidableEq, Repr

/-- JavaScript falsiness: `undefined`, `null`, `false`, `0` and `""` are
falsy; objects are always truthy. -/
def jsFalsy : JsValue → Bool
  | .undef => true
  | .nullV => true
  | .boolV b => !b
  | .numV n => n == 0
  | .strV s => s == ""
  | .objV => false

/-- `typeof v === "string"`. -/
def isString : JsValue → Bool
  | .strV _ => true
  | _ => false

/-- Models JavaScript `String.prototype.trim`: strip leading and trailing
whitespace. -/
def jsTrim (s : String) : String :=
  String.mk (((s.data.dropWhile Char.isWhitespace).reverse.dropWhile
    Char.isWhitespace).reverse)

/-- `v.trim().length` for a string value (only ever consulted on strings;
yields 0 on other values, which the source never reaches thanks to
short-circuit evaluation). -/
def jsTrimLen : JsValue → Nat
  | .strV s => (jsTrim s).length
  | _ => 0

/-- `sub` is a prefix of `l`, over characters. -/
def charsHavePrefix : List Char → List Char → Bool
  | [], _ => true
  | _ :: _, [] => false
  | a :: as, b :: bs => a == b && charsHavePrefix as bs

/-- `sub` occurs contiguously inside `l`, over characters. -/
def charsHaveInfix (sub : List Char) : List Char → Bool
  | [] => charsHavePrefix sub []
  | b :: bs => charsHavePrefix sub (b :: bs) || charsHaveInfix sub bs

/-- Models JavaScript `s.includes(sub)`. -/
def strContains (s sub : String) : Bool :=
  charsHaveInfix sub.data s.data

/-- The parsed JSON request body of `POST /api/generate`, before validation:
each field is an arbitrary JavaScript value (the client is not trusted). -/
structure RequestBody where
  topic : JsValue
  keyPoints : JsValue
  tone : JsValue
  deriving DecidableEq, Repr

/-- One content block of a provider response, as far as the endpoint looks at
it: either a text block carrying its text, or a block of any other type. -/
inductive ContentBlock where
  | text (t : String)
  | nonText
  deriving DecidableEq, Repr

/-- Outcome of the provider call `anthropic.messages.create`: success with a
list of content blocks, or a thrown `Error` carrying its message. -/
inductive ProviderOutcome where
  | success (content : List ContentBlock)
  | failure (msg : String)
  deriving DecidableEq, Repr

/-- The endpoint's HTTP-level result: `errorResp status msg` is
`NextResponse.json({error: msg}, {status})`, `okResp article` is
`NextResponse.json({article}, {status: 200})`. -/
inductive ApiOutcome where
  | errorResp (status : Nat) (msg : String)
  | okResp (article : String)
  deriving DecidableEq, Repr

/-- The HTTP status of an outcome (success responses carry status 200). -/
def ApiOutcome.status : ApiOutcome → Nat
  | .errorResp s _ => s
  | .okResp _ => 200

-- Server-side literal messages (route.ts).
def topicRequiredMsg : String := "Topic is required and must be a non-empty string"
def topicTooLongMsg : String := "Topic must be 200 characters or less"
def keyPointsRequiredMsg : String := "Key points are required and must be a non-empty string"
def keyPointsTooLongMsg : String := "Key points must be 2000 characters or less"
def toneInvalidMsg : String := "Tone must be one of: professional, casual, academic, creative, conversational"
def notConfiguredMsg : String := "ANTHROPIC_API_KEY is not configured. Please add it to your environment variables."
def invalidKeyMsg : String := "Invalid Anthropic API key. Please check your ANTHROPIC_API_KEY environment variable."
def rateLimitMsg : String := "Rate limit exceeded. Please wait a moment and try again."
def timeoutMsg : String := "Request timeout. The AI took too long to respond. Please try again."
def genericFailureMsg : String := "Failed to generate article. Please try again later."
def fallbackArticle : String := "Failed to generate article content"

/-- The five allowed tone values (route.ts line 59). -/
def toneOptions : List String :=
  ["professional", "casual", "academic", "creative", "conversational"]

/-- `!v || typeof v !== "string" || v.trim().length === 0`
(route.ts lines 31 and 45). -/
def failsStringCheck (v : JsValue) : Bool :=
  jsFalsy v || !isString v || jsTrimLen v == 0

/-- `!tone || !["professional", ...].includes(tone)` (route.ts line 59);
`includes` uses strict equality, so a non-string never matches. -/
def failsToneCheck (v : JsValue) : Bool :=
  jsFalsy v || !(match v with | .strV s => toneOptions.contains s | _ => false)

/-- The endpoint's input validation, route.ts lines 31-64: the five checks in
source order, returning the first failing check's error message (all five are
returned with status 400), or `none` when all pass. -/
def validateInput (b : RequestBody) : Option String :=
  if failsStringCheck b.topic then some topicRequiredMsg
  else if 200 < jsTrimLen b.topic then some topicTooLongMsg
  else if failsStringCheck b.keyPoints then some keyPointsRequiredMsg
  else if 2000 < jsTrimLen b.keyPoints then some keyPointsTooLongMsg
  else if failsToneCheck b.tone then some toneInvalidMsg
  else none

/-- `!process.env.ANTHROPIC_API_KEY` (route.ts line 67): an environment
variable is missing (`undefined`) or the empty string, both falsy. -/
def envFalsy : Option String → Bool
  | none => true
  | some s => s == ""

/-- The catch block of `POST` (route.ts lines 118-150): substring-match the
thrown error's message, first matching case wins. -/
def catchHandler (msg : String) : ApiOutcome :=
  if strContains msg "401" || strContains msg "authentication" then
    .errorResp 500 invalidKeyMsg
  else if strContains msg "429" || strContains msg "rate limit" then
    .errorResp 429 rateLimitMsg
  else if strContains msg "timeout" then
    .errorResp 504 timeoutMsg
  else
    .errorResp 500 genericFailureMsg

/-- The message of the TypeError thrown by `message.content[0].type` when the
provider returns an empty content list (`content[0]` is `undefined`). -/
def undefinedTypeMsg : String :=
  "Cannot read properties of undefined (reading 'type')"

/-- The `POST` handler of route.ts as a function of the JSON-parse outcome of
the request body (a parse failure throws inside the `try`, carrying the parse
error's message), the `ANTHROPIC_API_KEY` environment value, and the outcome
of the provider call. `message.content[0].type` on an empty content list
throws a TypeError, which the same catch block maps. -/
def POST (parsed : Except String RequestBody) (apiKey : Option String)
    (provider : ProviderOutcome) : ApiOutcome :=
  match parsed with
  | .error msg => catchHandler msg
  | .ok body =>
    match validateInput body with
    | some msg => .errorResp 400 msg
    | none =>
      if envFalsy apiKey then .errorResp 500 notConfiguredMsg
      else
        match provider with
        | .failure msg => catchHandler msg
        | .success content =>
          match content with
          | [] => catchHandler undefinedTypeMsg
          | block :: _ =>
            match block with
            | .text t => .okResp t
            | .nonText => .okResp fallbackArticle

/-- A request body that passes all five validations (the spec's end-to-end
scenario input). -/
def validBody : RequestBody :=
  { topic := .strV "Remote Work",
    keyPoints := .strV "productivity, isolation, tooling",
    tone := .strV "casual" }

-- ------------------------------------------------------------------
-- Client side (page.tsx)
-- ------------------------------------------------------------------

/-- The client form state `formData` (page.tsx lines 27-31); the tone is
constrained to the enum by the UI but is a plain string here. -/
structure FormData where
  topic : String
  keyPoints : String
  tone : String
  deriving DecidableEq, Repr

-- Client-side literal messages (page.tsx).
def clientTopicEmptyMsg : String := "Please enter a topic"
def clientTopicLenMsg : String := "Topic must be 200 characters or less"
def clientKeyPointsEmptyMsg : String := "Please enter at least one key point"
def clientKeyPointsLenMsg : String := "Key points must be 2000 characters or less"
def cooldownMsg : String := "Please wait a few seconds before generating again"
def clientGenericMsg : String := "Failed to generate article"

/-- `validateForm` (page.tsx lines 44-62): returns the first failing rule's
error message (the source sets it via `setError` and returns `false`), or
`none` when all rules pass (the source returns `true`). Note the length
checks use the untrimmed `length`, unlike the server. -/
def validateForm (f : FormData) : Option String :=
  if jsTrim f.topic == "" then some clientTopicEmptyMsg
  else if 200 < f.topic.length then some clientTopicLenMsg
  else if jsTrim f.keyPoints == "" then some clientKeyPointsEmptyMsg
  else if 2000 < f.keyPoints.length then some clientKeyPointsLenMsg
  else none

/-- Outcome of the `fetch` in `handleSubmit`: an HTTP response with its `ok`
flag and parsed JSON body `{article, error?}`, or a thrown `Error` (network
failure, JSON parse failure) carrying its message. -/
inductive FetchOutcome where
  | response (ok : Bool) (article : String) (err : Option String)
  | transportFailure (msg : String)
  deriving DecidableEq, Repr

/-- `data.error || "Failed to generate article"` (page.tsx line 94): a
missing or empty `error` field is falsy and yields the fallback. -/
def errOrFallback : Option String → String
  | none => clientGenericMsg
  | some m => if m == "" then clientGenericMsg else m

/-- The client component state touched by `handleSubmit`
(page.tsx lines 27-35). -/
structure HomeState where
  formData : FormData
  generatedArticle : String
  isLoading : Bool
  error : String
  lastGenerated : Nat
  deriving DecidableEq, Repr

/-- `handleSubmit` (page.tsx lines 64-104) as a state transition: `now` is
`Date.now()` at entry (line 72), `now2` is `Date.now()` at the success update
(line 98), and `r` is the outcome the `fetch` would produce if issued. The
returned flag records whether a network request was issued. -/
def handleSubmit (s : HomeState) (now now2 : Nat) (r : FetchOutcome) :
    HomeState × Bool :=
  match validateForm s.formData with
  | some msg => ({ s with error := msg }, false)
  | none =>
    if now - s.lastGenerated < 3000 then
      ({ s with error := cooldownMsg }, false)
    else
      let s1 := { s with isLoading := true, error := "", generatedArticle := "" }
      match r with
      | .response ok article err =>
        if ok then
          ({ s1 with
              generatedArticle := article
              lastGenerated := now2
              isLoading := false }, true)
        else
          ({ s1 with error := errOrFallback err, isLoading := false }, true)
      | .transportFailure msg =>
        ({ s1 with error := msg, isLoading := false }, true)

/-- ASCII-alphanumeric test matching the regex class `[a-z0-9]` with the `i`
flag (page.tsx line 127). -/
def isAlnumAscii (c : Char) : Bool :=
  ('a' ≤ c && c ≤ 'z') || ('A' ≤ c && c ≤ 'Z') || ('0' ≤ c && c ≤ '9')

/-- The character list of
`topic.slice(0, 50).replace(/[^a-z0-9]/gi, '-').toLowerCase()`
(page.tsx line 127): first 50 characters, each character outside the class
replaced by a hyphen, then lower-cased (pointwise, since lower-casing
distributes over characters). -/
def slugChars (topic : String) : List Char :=
  (topic.data.take 50).map (fun c => (if isAlnumAscii c then c else '-').toLower)

/-- The filename built by `downloadMarkdown` (page.tsx line 127):
`` `${slug || 'article'}.md` `` where an empty slug string is falsy. -/
def downloadMarkdownFilename (topic : String) : String :=
  (if String.mk (slugChars topic) == "" then "article"
   else String.mk (slugChars topic)) ++ ".md"

-- ------------------------------------------------------------------
-- Helper lemmas
-- ------------------------------------------------------------------

theorem string_data_eq_nil (s : String) : s.data = [] ↔ s = "" := by
  constructor
  · intro h
    cases s with
    | mk d =>
      have h' : d = [] := h
      subst h'
      rfl
  · intro h
    subst h
    rfl

theorem failsStringCheck_strV (t : String) (h : jsTrim t ≠ "") :
    failsStringCheck (.strV t) = false := by
  have ht : t ≠ "" := fun he => h (by rw [he]; rfl)
  have hlen : (jsTrim t).length ≠ 0 := by
    intro hl
    exact h ((string_data_eq_nil (jsTrim t)).mp (List.length_eq_zero.mp hl))
  simp [failsStringCheck, jsFalsy, isString, jsTrimLen, ht, hlen]

-- ------------------------------------------------------------------
-- Claim theorems
-- ------------------------------------------------------------------

/-- C1: the generate endpoint's five input checks run in the source's fixed
order; given that all earlier checks pass, a failing check yields its own
message with status 400; the five messages are pairwise distinct; and on any
validation failure the response does not depend on the provider (no provider
call is made). -/
theorem POST_validation_order (b : RequestBody) (key : Option String)
    (p q : ProviderOutcome) :
    (failsStringCheck b.topic = true →
      POST (.ok b) key p = .errorResp 400 topicRequiredMsg) ∧
    (failsStringCheck b.topic = false → 200 < jsTrimLen b.topic →
      POST (.ok b) key p = .errorResp 400 topicTooLongMsg) ∧
    (failsStringCheck b.topic = false → jsTrimLen b.topic ≤ 200 →
      failsStringCheck b.keyPoints = true →
      POST (.ok b) key p = .errorResp 400 keyPointsRequiredMsg) ∧
    (failsStringCheck b.topic = false → jsTrimLen b.topic ≤ 200 →
      failsStringCheck b.keyPoints = false → 2000 < jsTrimLen b.keyPoints →
      POST (.ok b) key p = .errorResp 400 keyPointsTooLongMsg) ∧
    (failsStringCheck b.topic = false → jsTrimLen b.topic ≤ 200 →
      failsStringCheck b.keyPoints = false → jsTrimLen b.keyPoints ≤ 2000 →
      failsToneCheck b.tone = true →
      POST (.ok b) key p = .errorResp 400 toneInvalidMsg) ∧
    (validateInput b ≠ none → POST (.ok b) key p = POST (.ok b) key q) ∧
    List.Pairwise (· ≠ ·) [topicRequiredMsg, topicTooLongMsg,
      keyPointsRequiredMsg, keyPointsTooLongMsg, toneInvalidMsg] := by
  refine ⟨?_, ?_, ?_, ?_, ?_, ?_, by decide⟩
  · intro h1
    simp [POST, validateInput, h1]
  · intro h1 h2
    simp [POST, validateInput, h1, h2]
  · intro h1 h2 h3
    simp [POST, validateInput, h1, h3, Nat.not_lt.mpr h2]
  · intro h1 h2 h3 h4
    simp [POST, validateInput, h1, h3, h4, Nat.not_lt.mpr h2]
  · intro h1 h2 h3 h4 h5
    simp [POST, validateInput, h1, h3, h5, Nat.not_lt.mpr h2, Nat.not_lt.mpr h4]
  · intro h
    cases hv : validateInput b with
    | none => exact absurd hv h
    | some m => simp [POST, hv]

theorem POST_validation_order_witness :
    POST (.ok ⟨.undef, .strV "p", .strV "casual"⟩) none (.failure "x") =
      .errorResp 400 topicRequiredMsg :=
  (POST_validation_order ⟨.undef, .strV "p", .strV "casual"⟩ none
    (.failure "x") (.failure "y")).1 (by decide)

/-- C2: every provider-call failure is mapped by substring inspection of its
message, first matching case in the fixed source order: 401/authentication
with status 500, then 429/rate limit with status 429, then timeout with
status 504, else the generic message with status 500. The response is a
function of the message alone, hence deterministic. -/
theorem POST_provider_failure_mapping (msg : String) :
    POST (.ok validBody) (some "test-key") (.failure msg) =
      (if strContains msg "401" || strContains msg "authentication" then
        ApiOutcome.errorResp 500 invalidKeyMsg
      else if strContains msg "429" || strContains msg "rate limit" then
        ApiOutcome.errorResp 429 rateLimitMsg
      else if strContains msg "timeout" then
        ApiOutcome.errorResp 504 timeoutMsg
      else ApiOutcome.errorResp 500 genericFailureMsg) := by
  have hv : validateInput validBody = none := by decide
  have hk : envFalsy (some "test-key") = false := by decide
  simp [POST, hv, hk, catchHandler]

/-- C3 counterexample: a provider failure whose message contains "429" but
also "401" is mapped by the earlier 401/authentication case: the endpoint
returns status 500 with the invalid-credential message, not status 429 with
the rate-limit message. -/
theorem POST_rate_limit_after_auth_cex :
    strContains "401 and 429" "429" = true ∧
    POST (.ok validBody) (some "test-key") (.failure "401 and 429") =
      .errorResp 500 invalidKeyMsg ∧
    (POST (.ok validBody) (some "test-key") (.failure "401 and 429")).status ≠ 429 ∧
    invalidKeyMsg ≠ rateLimitMsg := by decide

/-- C3 amended: a provider failure whose message contains "429" and contains
neither "401" nor "authentication" is mapped to status 429 with the
rate-limit message, regardless of which other substrings (such as "timeout"
or "rate limit") are also present. -/
theorem POST_rate_limit_mapping_amended (msg : String)
    (h429 : strContains msg "429" = true)
    (h401 : strContains msg "401" = false)
    (hauth : strContains msg "authentication" = false) :
    POST (.ok validBody) (some "test-key") (.failure msg) =
      .errorResp 429 rateLimitMsg := by
  have hv : validateInput validBody = none := by decide
  have hk : envFalsy (some "test-key") = false := by decide
  simp [POST, hv, hk, catchHandler, h429, h401, hauth]

theorem POST_rate_limit_mapping_amended_witness :
    POST (.ok validBody) (some "test-key")
        (.failure "429 rate limit after timeout") =
      .errorResp 429 rateLimitMsg :=
  POST_rate_limit_mapping_amended "429 rate limit after timeout"
    (by decide) (by decide) (by decide)

/-- C4: for a body passing all validations, a missing (or empty, hence falsy)
`ANTHROPIC_API_KEY` yields the distinct not-configured message with status
500 and the response does not depend on the provider (it is never called);
and when validation fails, the endpoint returns that 400 error whatever the
credential state, so the credential check comes after input validation. -/
theorem POST_missing_key (b : RequestBody) (key : Option String)
    (p q : ProviderOutcome) :
    (validateInput b = none → envFalsy key = true →
      POST (.ok b) key p = .errorResp 500 notConfiguredMsg) ∧
    (validateInput b = none → envFalsy key = true →
      POST (.ok b) key p = POST (.ok b) key q) ∧
    (∀ msg, validateInput b = some msg →
      POST (.ok b) key p = .errorResp 400 msg) := by
  refine ⟨?_, ?_, ?_⟩
  · intro hv hk
    simp [POST, hv, hk]
  · intro hv hk
    simp [POST, hv, hk]
  · intro msg hm
    simp [POST, hm]

theorem POST_missing_key_witness :
    POST (.ok validBody) none (.failure "x") = .errorResp 500 notConfiguredMsg :=
  (POST_missing_key validBody none (.failure "x") (.failure "y")).1
    (by decide) (by decide)

/-- C5 counterexample: a successful provider response whose first content
block is not text-typed but which does contain a text-typed block (the
second) yields the fallback article, not the text of the first text-typed
block — the code inspects only `content[0]`. -/
theorem POST_first_block_cex :
    POST (.ok validBody) (some "test-key")
        (.success [.nonText, .text "# Remote Work"]) =
      .okResp fallbackArticle ∧
    fallbackArticle ≠ "# Remote Work" := by decide

/-- C5 amended: on a successful provider response the endpoint inspects only
the first content block: if it is text-typed the article is its text, and
otherwise the article is the literal fallback string, both with status 200;
an empty content list instead makes the extraction throw, which the catch
block maps to the generic failure with status 500. -/
theorem POST_content_extraction_amended (blk : ContentBlock)
    (rest : List ContentBlock) :
    POST (.ok validBody) (some "test-key") (.success (blk :: rest)) =
      .okResp (match blk with | .text t => t | .nonText => fallbackArticle) ∧
    (POST (.ok validBody) (some "test-key") (.success (blk :: rest))).status = 200 ∧
    POST (.ok validBody) (some "test-key") (.success []) =
      .errorResp 500 genericFailureMsg := by
  have hv : validateInput validBody = none := by decide
  have hk : envFalsy (some "test-key") = false := by decide
  refine ⟨?_, ?_, by decide⟩
  · cases blk <;> simp [POST, hv, hk]
  · cases blk <;> simp [POST, hv, hk, ApiOutcome.status]

/-- C6 counterexample: an all-symbol topic does not yield `article.md`: the
slug `"---"` is a non-empty (truthy) string, so the `"article"` default is
not used and the filename is `"---.md"`. -/
theorem downloadFilename_default_cex :
    downloadMarkdownFilename "!!!" = "---.md" ∧
    "---.md" ≠ "article.md" := by decide

/-- C6 amended: the filename is the first 50 characters of the topic with
every character outside `[a-z0-9]` (case-insensitive) replaced by a hyphen,
lower-cased, with `".md"` appended; the `"article"` default applies only when
the derived slug is the empty string, which happens exactly for the empty
topic — an all-symbol topic yields a hyphen slug such as `"---.md"`. The
example `"AI Ethics & Society!"` still yields `"ai-ethics---society-.md"`. -/
theorem downloadFilename_amended :
    downloadMarkdownFilename "AI Ethics & Society!" = "ai-ethics---society-.md" ∧
    downloadMarkdownFilename "" = "article.md" ∧
    downloadMarkdownFilename "!!!" = "---.md" ∧
    ∀ t : String, t ≠ "" →
      downloadMarkdownFilename t = String.mk (slugChars t) ++ ".md" := by
  refine ⟨by decide, by decide, by decide, ?_⟩
  intro t ht
  have hd : t.data ≠ [] := fun h => ht ((string_data_eq_nil t).mp h)
  have hslug : (String.mk (slugChars t) == "") = false := by
    rw [beq_eq_false_iff_ne]
    intro h
    apply hd
    have h2 : slugChars t = [] := (string_data_eq_nil (String.mk (slugChars t))).mpr h
    simp [slugChars] at h2
    exact h2
  simp [downloadMarkdownFilename, hslug]

theorem downloadFilename_amended_witness :
    downloadMarkdownFilename "x" = String.mk (slugChars "x") ++ ".md" :=
  downloadFilename_amended.2.2.2 "x" (by decide)

/-- C7 counterexample: a `handleSubmit` call made 1000 ms after
`lastGenerated` but with an invalid form aborts with the validation error
(`"Please enter a topic"`), not with the cooldown ("please wait") error —
client validation runs before the cooldown check. (It still issues no
request.) -/
theorem handleSubmit_cooldown_cex :
    (handleSubmit ⟨⟨"", "p", "professional"⟩, "", false, "", 1000⟩ 2000 2000
        (.response true "a" none)).1.error = clientTopicEmptyMsg ∧
    clientTopicEmptyMsg ≠ cooldownMsg ∧
    2000 - 1000 < 3000 ∧
    (handleSubmit ⟨⟨"", "p", "professional"⟩, "", false, "", 1000⟩ 2000 2000
        (.response true "a" none)).2 = false := by decide

/-- C7 amended: for a `handleSubmit` call that passes client validation and
is made fewer than 3000 ms after `lastGenerated`, the call aborts with the
cooldown error and issues no request; the cooldown timestamp is left
unchanged by any failed attempt (it is updated only on success), and when
3000 ms or more have elapsed a validated submission issues a request. -/
theorem handleSubmit_cooldown_amended (s : HomeState) (now now2 : Nat)
    (r : FetchOutcome) :
    (validateForm s.formData = none → now - s.lastGenerated < 3000 →
      handleSubmit s now now2 r = ({ s with error := cooldownMsg }, false)) ∧
    (validateForm s.formData = none → 3000 ≤ now - s.lastGenerated →
      (handleSubmit s now now2 r).2 = true) ∧
    (∀ article err, r = .response false article err →
      (handleSubmit s now now2 r).1.lastGenerated = s.lastGenerated) ∧
    (∀ m, r = .transportFailure m →
      (handleSubmit s now now2 r).1.lastGenerated = s.lastGenerated) := by
  refine ⟨?_, ?_, ?_, ?_⟩
  · intro h1 h2
    simp [handleSubmit, h1, h2]
  · intro h1 h2
    have h3 : ¬ now - s.lastGenerated < 3000 := Nat.not_lt.mpr h2
    cases r with
    | response ok article err => cases ok <;> simp [handleSubmit, h1, h3]
    | transportFailure m => simp [handleSubmit, h1, h3]
  · rintro article err rfl
    cases hv : validateForm s.formData with
    | some m => simp [handleSubmit, hv]
    | none =>
      by_cases hc : now - s.lastGenerated < 3000 <;>
        simp [handleSubmit, hv, hc]
  · rintro m rfl
    cases hv : validateForm s.formData with
    | some m2 => simp [handleSubmit, hv]
    | none =>
      by_cases hc : now - s.lastGenerated < 3000 <;>
        simp [handleSubmit, hv, hc]

theorem handleSubmit_cooldown_amended_witness :
    handleSubmit ⟨⟨"t", "p", "professional"⟩, "", false, "", 1000⟩ 2000 0
        (.response true "a" none) =
      ({ (⟨⟨"t", "p", "professional"⟩, "", false, "", 1000⟩ : HomeState) with
          error := cooldownMsg }, false) :=
  (handleSubmit_cooldown_amended ⟨⟨"t", "p", "professional"⟩, "", false, "", 1000⟩
    2000 0 (.response true "a" none)).1 (by decide) (by decide)

/-- C8: for a submission that passes validation and the cooldown: a failed
HTTP response sets the error to the response's error field (with the generic
fallback when that field is missing or empty) and leaves `generatedArticle`
empty; a successful response sets `generatedArticle` to the returned article
and updates `lastGenerated` to the completion time; a transport failure sets
the error to the thrown message and leaves `generatedArticle` empty; and in
every case `isLoading` ends up `false`. -/
theorem handleSubmit_response_lifecycle (s : HomeState) (now now2 : Nat)
    (r : FetchOutcome) (hv : validateForm s.formData = none)
    (hc : 3000 ≤ now - s.lastGenerated) :
    (∀ article err, r = .response false article err →
      (handleSubmit s now now2 r).1.error = errOrFallback err ∧
      (handleSubmit s now now2 r).1.generatedArticle = "") ∧
    (∀ article err, r = .response true article err →
      (handleSubmit s now now2 r).1.generatedArticle = article ∧
      (handleSubmit s now now2 r).1.lastGenerated = now2) ∧
    (∀ m, r = .transportFailure m →
      (handleSubmit s now now2 r).1.error = m ∧
      (handleSubmit s now now2 r).1.generatedArticle = "") ∧
    (handleSubmit s now now2 r).1.isLoading = false := by
  have h3 : ¬ now - s.lastGenerated < 3000 := Nat.not_lt.mpr hc
  refine ⟨?_, ?_, ?_, ?_⟩
  · rintro article err rfl
    simp [handleSubmit, hv, h3]
  · rintro article err rfl
    simp [handleSubmit, hv, h3]
  · rintro m rfl
    simp [handleSubmit, hv, h3]
  · cases r with
    | response ok article err => cases ok <;> simp [handleSubmit, hv, h3]
    | transportFailure m => simp [handleSubmit, hv, h3]

theorem handleSubmit_response_lifecycle_witness :
    (handleSubmit ⟨⟨"t", "p", "professional"⟩, "old", true, "e", 0⟩ 5000 6000
        (.response true "# A" none)).1.generatedArticle = "# A" :=
  ((handleSubmit_response_lifecycle ⟨⟨"t", "p", "professional"⟩, "old", true, "e", 0⟩
    5000 6000 (.response true "# A" none) (by decide) (by decide)).2.1
    "# A" none rfl).1

/-- C9: a request body that fails JSON parsing is handled by the same catch
block as provider failures, never by the 400 validation path: the endpoint
returns no 400 response for it, and when the parse-error message contains
none of the mapped substrings the result is the generic failure with status
500. -/
theorem POST_invalid_json_generic (msg : String) (key : Option String)
    (p : ProviderOutcome) :
    POST (.error msg) key p = catchHandler msg ∧
    POST (.error msg) key p =
      POST (.ok validBody) (some "test-key") (.failure msg) ∧
    (∀ m, POST (.error msg) key p ≠ .errorResp 400 m) ∧
    (strContains msg "401" = false → strContains msg "authentication" = false →
     strContains msg "429" = false → strContains msg "rate limit" = false →
     strContains msg "timeout" = false →
      POST (.error msg) key p = .errorResp 500 genericFailureMsg) := by
  have hpost : POST (.error msg) key p = catchHandler msg := rfl
  have hv : validateInput validBody = none := by decide
  have hk : envFalsy (some "test-key") = false := by decide
  refine ⟨hpost, ?_, ?_, ?_⟩
  · rw [hpost]
    simp [POST, hv, hk]
  · intro m h
    rw [hpost] at h
    unfold catchHandler at h
    split_ifs at h <;> simp_all
  · intro h1 h2 h3 h4 h5
    rw [hpost]
    simp [catchHandler, h1, h2, h3, h4, h5]

theorem POST_invalid_json_generic_witness :
    POST (.error "Unexpected token < in JSON at position 0") none
        (.failure "x") = .errorResp 500 genericFailureMsg :=
  (POST_invalid_json_generic "Unexpected token < in JSON at position 0" none
    (.failure "x")).2.2.2 (by decide) (by decide) (by decide) (by decide)
    (by decide)

set_option maxRecDepth 8000 in
/-- C10 counterexample: a topic of 201 spaces has untrimmed length over 200,
yet `validateForm` reports the empty-topic error (`"Please enter a topic"`),
not the length error — the trimmed-emptiness check runs first. -/
theorem validateForm_untrimmed_cex :
    200 < (String.mk (List.replicate 201 ' ')).length ∧
    validateForm ⟨String.mk (List.replicate 201 ' '), "p", "professional"⟩ =
      some clientTopicEmptyMsg ∧
    clientTopicEmptyMsg ≠ clientTopicLenMsg := by decide

/-- C10 amended: the client compares untrimmed lengths while the server
compares trimmed lengths: every topic whose untrimmed length exceeds 200 and
whose trimmed form is non-empty gets the client length error from
`validateForm`, including topics whose trimmed length is at most 200, which
the server-side validation accepts (a whitespace-only over-long topic instead
gets the empty-topic error). -/
theorem validateForm_untrimmed_amended (f : FormData)
    (hne : jsTrim f.topic ≠ "") (hlen : 200 < f.topic.length) :
    validateForm f = some clientTopicLenMsg ∧
    ((jsTrim f.topic).length ≤ 200 →
      validateInput ⟨.strV f.topic, .strV "key points", .strV "casual"⟩ = none) := by
  constructor
  · simp [validateForm, hne, hlen]
  · intro hle
    have h1 : failsStringCheck (.strV f.topic) = false :=
      failsStringCheck_strV f.topic hne
    have h2 : ¬ 200 < jsTrimLen (.strV f.topic) := by
      simpa [jsTrimLen] using Nat.not_lt.mpr hle
    have h3 : failsStringCheck (.strV "key points") = false := by decide
    have h4 : ¬ 2000 < jsTrimLen (.strV "key points") := by decide
    have h5 : failsToneCheck (.strV "casual") = false := by decide
    simp [validateInput, h1, h2, h3, h4, h5]

set_option maxRecDepth 8000 in
theorem validateForm_untrimmed_amended_witness :
    validateForm ⟨String.mk (List.replicate 201 'a'), "p", "casual"⟩ =
      some clientTopicLenMsg :=
  (validateForm_untrimmed_amended
    ⟨String.mk (List.replicate 201 'a'), "p", "casual"⟩
    (by decide) (by decide)).1
